import Mathlib

/-!
Verification of the Desmos calculator bootstrapper
(`src/static/desmos_calculator.js`).

The script is a thin orchestration layer around an external graphing
widget.  We embed it shallowly: every external call the script makes
(DOM lookup, widget construction, `updateSettings`, `setMathBounds`,
`setExpression`) is mediated by an environment `Env` that decides, per
call, whether the call throws; the run of the script is a pure function
from the environment to a final `RunState` that records the manager's
fields, the published window globals, and a full trace of observable
events (console lines, scheduled timers, external calls, flag writes).

The external widget itself is not part of the repository.  Its state
transitions are modelled from the spec: `updateSettings` merges the
partial settings object into the live settings snapshot, `setMathBounds`
sets the four extents, and `setExpression` registers or replaces one
expression by id.
-/

namespace DesmosCalc

/-- Widget capability flags, mirroring the JS constant `CALCULATOR_CONFIG`. -/
structure CalculatorConfig where
  allowComplex : Bool
  expressions : Bool
  settingsMenu : Bool
  smartGrapher : Bool
deriving DecidableEq

/-- `CALCULATOR_CONFIG` from the source: all four flags are `true`. -/
def CALCULATOR_CONFIG : CalculatorConfig :=
  { allowComplex := true, expressions := true, settingsMenu := true, smartGrapher := true }

/-- A partial settings object passed to `updateSettings`; a `none` field is an
absent key (the JS object simply omits it). -/
structure SettingsUpdate where
  degreeMode : Option Bool
  xAxisScale : Option String
  yAxisScale : Option String
deriving DecidableEq

/-- `DEFAULT_SETTINGS` from the source. -/
def DEFAULT_SETTINGS : SettingsUpdate :=
  { degreeMode := some false, xAxisScale := some "logarithmic", yAxisScale := some "linear" }

/-- Four numeric axis extents, mirroring the JS bounds objects. -/
structure Bounds where
  left : Int
  right : Int
  bottom : Int
  top : Int
deriving DecidableEq

/-- `DEFAULT_BOUNDS` from the source. -/
def DEFAULT_BOUNDS : Bounds :=
  { left := 10000, right := 10000000000, bottom := -2, top := 2 }

/-- Slider bounds attached to an expression descriptor. -/
structure SliderBounds where
  min : Int
  max : Int
  step : Int
deriving DecidableEq

/-- An expression descriptor: id, latex string, optional slider bounds. -/
structure ExprDef where
  id : String
  latex : String
  sliderBounds : Option SliderBounds
deriving DecidableEq

/-- `UNIT_DEFINITIONS` from the source: the eight engineering-notation
constants, in declared order. -/
def UNIT_DEFINITIONS : List ExprDef :=
  [ { id := "f_unit", latex := "f = 10^\x7b-15\x7d", sliderBounds := none },
    { id := "p_unit", latex := "p = 10^\x7b-12\x7d", sliderBounds := none },
    { id := "n_unit", latex := "n = 10^\x7b-9\x7d", sliderBounds := none },
    { id := "u_unit", latex := "u = 10^\x7b-6\x7d", sliderBounds := none },
    { id := "m_unit", latex := "m = 10^\x7b-3\x7d", sliderBounds := none },
    { id := "k_unit", latex := "k = 10^\x7b3\x7d", sliderBounds := none },
    { id := "M_unit", latex := "M = 10^\x7b6\x7d", sliderBounds := none },
    { id := "G_unit", latex := "G = 10^\x7b9\x7d", sliderBounds := none } ]

/-- The `coreExpressions` list declared inside `addCoreExpressions` in the
source: six descriptors in declared order (the `z_val` entry is commented
out in the source and therefore absent here too). -/
def coreExpressions : List ExprDef :=
  [ { id := "f", latex := "Z = \\frac\x7b1\x7d\x7b1+sR_\x7be\x7dC_\x7be\x7d\x7d",
      sliderBounds := none },
    { id := "slider1", latex := "R_\x7be\x7d=100",
      sliderBounds := some { min := 100, max := 100000000, step := 1 } },
    { id := "slider2", latex := "C_\x7be\x7d = 1p", sliderBounds := none },
    { id := "z_abs", latex := "\\left|Z\\right|", sliderBounds := none },
    { id := "z_phase",
      latex := "\\arctan\\left(\\frac\x7b\\operatorname\x7bimag\x7d\\left(Z\\right)\x7d\x7b\\operatorname\x7breal\x7d\\left(Z\\right)\x7d\\right)",
      sliderBounds := none },
    { id := "s_def", latex := "s = i * 2 * \\pi * x", sliderBounds := none } ]

/-- The live settings snapshot exposed by the external widget
(`handle.settings`). -/
structure WidgetSettings where
  degreeMode : Bool
  xAxisScale : String
  yAxisScale : String
deriving DecidableEq

/-- Modelled from the spec: the external graphing widget, a black box that
holds a settings snapshot, the current bounds, and the registered
expressions (`setExpression` registers or replaces one expression by id). -/
structure Widget where
  settings : WidgetSettings
  bounds : Bounds
  exprs : List ExprDef
deriving DecidableEq

/-- The behavior of the external world for one run: whether the DOM lookup
finds the mount element, the widget's state at construction, and, for each
external widget call (identified by its per-method call index and its
argument), whether that call throws. -/
structure Env where
  elementExists : String → Bool
  initialSettings : WidgetSettings
  initialBounds : Bounds
  updateSettingsThrows : Nat → SettingsUpdate → Bool
  setMathBoundsThrows : Nat → Bounds → Bool
  setExpressionThrows : Nat → ExprDef → Bool

/-- One observable event of a run: a console line, a scheduled timer, an
external widget call (with whether it threw), or a readiness-flag write. -/
inductive Event where
  | log (msg : String)
  | logError (msg : String)
  | createCalculator (cfg : CalculatorConfig)
  | publishDesmosCalc
  | scheduleTimer (ms : Nat)
  | callUpdateSettings (s : SettingsUpdate) (threw : Bool)
  | callSetMathBounds (b : Bounds) (threw : Bool)
  | callSetExpression (e : ExprDef) (threw : Bool)
  | setIsReady (v : Bool)
  | setGlobalCalculatorReady (v : Bool)
  | setIsFullyReady (v : Bool)
  | setGlobalCalculatorFullyReady (v : Bool)
deriving DecidableEq

/-- The full state of a run: the `DesmosCalculatorManager` fields
(`elementId`, `zLatex`, `calculator`, `isReady`, `isFullyReady`), the
window globals the script writes (`window.desmosCalc`,
`window.calculatorReady`, `window.calculatorFullyReady`; `none` models an
unset global), per-method call counters, and the event trace. -/
structure RunState where
  elementId : String
  zLatex : String
  calculator : Option Widget
  isReady : Bool
  isFullyReady : Bool
  winDesmosCalc : Bool
  winCalculatorReady : Option Bool
  winCalculatorFullyReady : Option Bool
  usCount : Nat
  mbCount : Nat
  seCount : Nat
  trace : List Event
deriving DecidableEq

/-- Append one event to the trace. -/
def emit (st : RunState) (e : Event) : RunState :=
  { st with trace := st.trace ++ [e] }

/-- Append several events to the trace. -/
def emits (st : RunState) (es : List Event) : RunState :=
  { st with trace := st.trace ++ es }

/-- Merging a partial settings object into the snapshot: present keys
overwrite, absent keys are untouched. -/
def applyUpdate (w : Widget) (s : SettingsUpdate) : Widget :=
  { w with settings :=
      { degreeMode := s.degreeMode.getD w.settings.degreeMode
        xAxisScale := s.xAxisScale.getD w.settings.xAxisScale
        yAxisScale := s.yAxisScale.getD w.settings.yAxisScale } }

/-- Register or replace one expression by id. -/
def upsertExpr (es : List ExprDef) (e : ExprDef) : List ExprDef :=
  if es.any fun x => x.id == e.id then
    es.map fun x => if x.id == e.id then e else x
  else
    es ++ [e]

/-- One `this.calculator.updateSettings(s)` call: the environment decides
whether it throws; the call is recorded in the trace either way, and on
success the partial settings are merged into the widget snapshot. -/
def doUpdateSettings (env : Env) (st : RunState) (s : SettingsUpdate) : RunState × Bool :=
  ({ st with
      usCount := st.usCount + 1
      trace := st.trace ++ [Event.callUpdateSettings s (env.updateSettingsThrows st.usCount s)]
      calculator :=
        if env.updateSettingsThrows st.usCount s then st.calculator
        else st.calculator.map fun w => applyUpdate w s },
   env.updateSettingsThrows st.usCount s)

/-- One `this.calculator.setMathBounds(b)` call. -/
def doSetMathBounds (env : Env) (st : RunState) (b : Bounds) : RunState × Bool :=
  ({ st with
      mbCount := st.mbCount + 1
      trace := st.trace ++ [Event.callSetMathBounds b (env.setMathBoundsThrows st.mbCount b)]
      calculator :=
        if env.setMathBoundsThrows st.mbCount b then st.calculator
        else st.calculator.map fun w => { w with bounds := b } },
   env.setMathBoundsThrows st.mbCount b)

/-- One `this.calculator.setExpression(e)` call. -/
def doSetExpression (env : Env) (st : RunState) (e : ExprDef) : RunState × Bool :=
  ({ st with
      seCount := st.seCount + 1
      trace := st.trace ++ [Event.callSetExpression e (env.setExpressionThrows st.seCount e)]
      calculator :=
        if env.setExpressionThrows st.seCount e then st.calculator
        else st.calculator.map fun w => { w with exprs := upsertExpr w.exprs e } },
   env.setExpressionThrows st.seCount e)

/-- The fallback key for degree mode tried by `applySettingsIndividually`. -/
def fallbackDegree : SettingsUpdate :=
  { degreeMode := some false, xAxisScale := none, yAxisScale := none }

/-- The fallback key for the x-axis scale tried by
`applySettingsIndividually`. -/
def fallbackXAxis : SettingsUpdate :=
  { degreeMode := none, xAxisScale := some "logarithmic", yAxisScale := none }

/-- The `settingsToTry` list from the source. -/
def settingsToTry : List (SettingsUpdate × String) :=
  [ (fallbackDegree, "Degree mode"),
    (fallbackXAxis, "X-axis logarithmic scale") ]

/-- One iteration of the `settingsToTry.forEach` loop: try the single
setting, log success or failure (the enclosing try/catch swallows the
throw). -/
def tryStep (env : Env) (st : RunState) (p : SettingsUpdate × String) : RunState :=
  { (doUpdateSettings env st p.1).1 with
      trace := (doUpdateSettings env st p.1).1.trace ++
        [if (doUpdateSettings env st p.1).2 then Event.logError (p.2 ++ " failed:")
         else Event.log (p.2 ++ " applied successfully")] }

/-- `applySettingsIndividually` from the source: each setting key one at a
time, then the bounds separately, logging per item; no throw escapes. -/
def applySettingsIndividually (env : Env) (st : RunState) : RunState :=
  { (doSetMathBounds env (settingsToTry.foldl (tryStep env) st) DEFAULT_BOUNDS).1 with
      trace := (doSetMathBounds env (settingsToTry.foldl (tryStep env) st) DEFAULT_BOUNDS).1.trace ++
        [if (doSetMathBounds env (settingsToTry.foldl (tryStep env) st) DEFAULT_BOUNDS).2 then
           Event.logError "Math bounds failed:"
         else Event.log "Math bounds applied successfully"] }

/-- `logSettingsStatus` from the source: reads the live settings snapshot
and logs it. -/
def logSettingsStatus (st : RunState) : RunState :=
  emits st
    [ Event.log "Settings applied successfully!",
      Event.log ("Degree Mode: " ++ toString ((st.calculator.map Widget.settings).getD
        { degreeMode := false, xAxisScale := "", yAxisScale := "" }).degreeMode),
      Event.log ("X Axis Scale: " ++ ((st.calculator.map Widget.settings).getD
        { degreeMode := false, xAxisScale := "", yAxisScale := "" }).xAxisScale),
      Event.log ("Y Axis Scale: " ++ ((st.calculator.map Widget.settings).getD
        { degreeMode := false, xAxisScale := "", yAxisScale := "" }).yAxisScale),
      Event.log "Math bounds should now be: left=10000, right=10000000000, bottom=-2, top=2" ]

/-- The message logged after a successful batch `setMathBounds` call. -/
def boundsLogMsg : String :=
  "setMathBounds called with bounds: left=10000, right=10000000000, bottom=-2, top=2"

/-- The body of the 500ms timer callback in `applySettings`, up to but not
including the trailing `this.addExpressions()` call (which runs after the
try/catch on every path; `applySettings` below chains the two, exactly as
in the source).  The batch `updateSettings` call, then `setMathBounds`;
any throw jumps to the catch, which logs and runs
`applySettingsIndividually`; only the non-fallback success path sets
`isReady` and `window.calculatorReady`. -/
def settingsBody (env : Env) (st : RunState) : RunState :=
  if (doUpdateSettings env (emits st [Event.scheduleTimer 500,
        Event.log "Applying calculator settings..."]) DEFAULT_SETTINGS).2 then
    applySettingsIndividually env
      (emit (doUpdateSettings env (emits st [Event.scheduleTimer 500,
          Event.log "Applying calculator settings..."]) DEFAULT_SETTINGS).1
        (Event.logError "Error applying settings:"))
  else
    if (doSetMathBounds env (doUpdateSettings env (emits st [Event.scheduleTimer 500,
          Event.log "Applying calculator settings..."]) DEFAULT_SETTINGS).1 DEFAULT_BOUNDS).2 then
      applySettingsIndividually env
        (emit (doSetMathBounds env (doUpdateSettings env (emits st [Event.scheduleTimer 500,
            Event.log "Applying calculator settings..."]) DEFAULT_SETTINGS).1 DEFAULT_BOUNDS).1
          (Event.logError "Error applying settings:"))
    else
      emits
        { logSettingsStatus
            (emit (doSetMathBounds env (doUpdateSettings env (emits st [Event.scheduleTimer 500,
                Event.log "Applying calculator settings..."]) DEFAULT_SETTINGS).1 DEFAULT_BOUNDS).1
              (Event.log boundsLogMsg)) with
          isReady := true
          winCalculatorReady := some true }
        [Event.setIsReady true, Event.setGlobalCalculatorReady true]

/-- The `coreExpressions.forEach` loop of `addCoreExpressions`: the calls
are not individually guarded, so the first throw aborts the rest of the
loop and propagates (the returned flag). -/
def addCoreAux (env : Env) : List ExprDef → RunState → RunState × Bool
  | [], st => (st, false)
  | e :: es, st =>
    if (doSetExpression env st e).2 then ((doSetExpression env st e).1, true)
    else addCoreAux env es (doSetExpression env st e).1

/-- `addCoreExpressions` from the source: the six core descriptors as one
unguarded batch. -/
def addCoreExpressions (env : Env) (st : RunState) : RunState × Bool :=
  addCoreAux env coreExpressions st

/-- One iteration of the `UNIT_DEFINITIONS.forEach((unit, index) => ...)`
loop: the registration is individually guarded; its success or failure is
logged per unit and the loop carries on either way. -/
def unitStep (env : Env) (i : Nat) (u : ExprDef) (st : RunState) : RunState :=
  emit (doSetExpression env st u).1
    (if (doSetExpression env st u).2 then
       Event.logError ("Unit " ++ toString (i + 1) ++ " failed:")
     else Event.log ("Unit " ++ toString (i + 1) ++ " added successfully"))

/-- The `UNIT_DEFINITIONS.forEach((unit, index) => ...)` loop. -/
def addUnitsAux (env : Env) : Nat → List ExprDef → RunState → RunState
  | _, [], st => st
  | i, u :: us, st => addUnitsAux env (i + 1) us (unitStep env i u st)

/-- `addUnitDefinitions` from the source. -/
def addUnitDefinitions (env : Env) (st : RunState) : RunState :=
  addUnitsAux env 0 UNIT_DEFINITIONS st

/-- `addExpressions` from the source (the 200ms timer callback): core
batch, then the unit loop, then on full success of the try block the
fully-ready flag and global are set; a throw from the core batch is caught
and logged, skipping the rest of the try block. -/
def addExpressions (env : Env) (st : RunState) : RunState :=
  if (addCoreExpressions env (emits st [Event.scheduleTimer 200,
        Event.log "Adding expressions..."])).2 then
    emit (addCoreExpressions env (emits st [Event.scheduleTimer 200,
        Event.log "Adding expressions..."])).1
      (Event.logError "Error adding expressions:")
  else
    emits
      { addUnitDefinitions env (addCoreExpressions env (emits st [Event.scheduleTimer 200,
            Event.log "Adding expressions..."])).1 with
          isFullyReady := true
          winCalculatorFullyReady := some true }
      [Event.log "All expressions added successfully!", Event.setIsFullyReady true,
       Event.setGlobalCalculatorFullyReady true]

/-- `applySettings` from the source: the settings body, then
(unconditionally) `addExpressions`. -/
def applySettings (env : Env) (st : RunState) : RunState :=
  addExpressions env (settingsBody env st)

/-- The manager state right after `new DesmosCalculatorManager(elementId, zLatex)`. -/
def initSt (elementId zLatex : String) : RunState :=
  { elementId := elementId
    zLatex := zLatex
    calculator := none
    isReady := false
    isFullyReady := false
    winDesmosCalc := false
    winCalculatorReady := none
    winCalculatorFullyReady := none
    usCount := 0
    mbCount := 0
    seCount := 0
    trace := [] }

/-- `init` from the source: DOM lookup; on a missing element, one error
line and nothing else; otherwise construct the widget, publish the debug
global, and run the settings stage. -/
def init (env : Env) (st : RunState) : RunState :=
  if env.elementExists st.elementId then
    applySettings env
      (emits
        { emits
            { emit st (Event.log "Initializing Desmos Calculator...") with
                calculator := some
                  { settings := env.initialSettings, bounds := env.initialBounds, exprs := [] } }
            [Event.createCalculator CALCULATOR_CONFIG] with
          winDesmosCalc := true }
        [Event.publishDesmosCalc,
         Event.log "Calculator object available as window.desmosCalc for debugging"])
  else
    emit (emit st (Event.log "Initializing Desmos Calculator..."))
      (Event.logError ("Element with ID \x27" ++ st.elementId ++ "\x27 not found"))

/-- `getStatus` from the source: a pure read of the two flags and the
handle. -/
structure Status where
  isReady : Bool
  isFullyReady : Bool
  calculator : Option Widget
deriving DecidableEq

def getStatus (st : RunState) : Status :=
  { isReady := st.isReady, isFullyReady := st.isFullyReady, calculator := st.calculator }

/-- `initializeCalculator` from the source: constructs the manager on
mount id `"calculator"` and runs `init`. -/
def initializeCalculator (env : Env) (zLatex : String) : RunState :=
  init env (initSt "calculator" zLatex)

/-- The list of `updateSettings` call arguments recorded in a trace. -/
def updateSettingsCalls (tr : List Event) : List SettingsUpdate :=
  tr.filterMap fun e =>
    match e with
    | Event.callUpdateSettings s _ => some s
    | _ => none

/-- The list of `setMathBounds` call arguments recorded in a trace. -/
def setMathBoundsCalls (tr : List Event) : List Bounds :=
  tr.filterMap fun e =>
    match e with
    | Event.callSetMathBounds b _ => some b
    | _ => none

/-- The list of `setExpression` call arguments recorded in a trace. -/
def setExpressionCalls (tr : List Event) : List ExprDef :=
  tr.filterMap fun e =>
    match e with
    | Event.callSetExpression d _ => some d
    | _ => none

/-- The values written to `isReady` over a trace. -/
def isReadyWrites (tr : List Event) : List Bool :=
  tr.filterMap fun e =>
    match e with
    | Event.setIsReady v => some v
    | _ => none

/-- The values written to `isFullyReady` over a trace. -/
def isFullyReadyWrites (tr : List Event) : List Bool :=
  tr.filterMap fun e =>
    match e with
    | Event.setIsFullyReady v => some v
    | _ => none

/-- The timers scheduled over a trace (their millisecond delays). -/
def timersScheduled (tr : List Event) : List Nat :=
  tr.filterMap fun e =>
    match e with
    | Event.scheduleTimer ms => some ms
    | _ => none

end DesmosCalc

namespace DesmosCalc

/-! ### Trace projection lemmas -/

theorem updateSettingsCalls_append (a b : List Event) :
    updateSettingsCalls (a ++ b) = updateSettingsCalls a ++ updateSettingsCalls b := by
  simp [updateSettingsCalls]

theorem setMathBoundsCalls_append (a b : List Event) :
    setMathBoundsCalls (a ++ b) = setMathBoundsCalls a ++ setMathBoundsCalls b := by
  simp [setMathBoundsCalls]

theorem setExpressionCalls_append (a b : List Event) :
    setExpressionCalls (a ++ b) = setExpressionCalls a ++ setExpressionCalls b := by
  simp [setExpressionCalls]

theorem isReadyWrites_append (a b : List Event) :
    isReadyWrites (a ++ b) = isReadyWrites a ++ isReadyWrites b := by
  simp [isReadyWrites]

theorem isFullyReadyWrites_append (a b : List Event) :
    isFullyReadyWrites (a ++ b) = isFullyReadyWrites a ++ isFullyReadyWrites b := by
  simp [isFullyReadyWrites]

theorem timersScheduled_append (a b : List Event) :
    timersScheduled (a ++ b) = timersScheduled a ++ timersScheduled b := by
  simp [timersScheduled]

/-! ### Facts about the individual-settings fallback -/

/-- The individual fallback makes, for any environment behavior, exactly one
`updateSettings` call per key of `settingsToTry` and exactly one
`setMathBounds` call, makes no `setExpression` call, writes no readiness
flag, and leaves the manager flags, the globals, the registered
expressions and the `setExpression` counter untouched. -/
theorem applySettingsIndividually_facts (env : Env) (st : RunState) :
    updateSettingsCalls (applySettingsIndividually env st).trace
        = updateSettingsCalls st.trace ++ [fallbackDegree, fallbackXAxis] ∧
    setMathBoundsCalls (applySettingsIndividually env st).trace
        = setMathBoundsCalls st.trace ++ [DEFAULT_BOUNDS] ∧
    setExpressionCalls (applySettingsIndividually env st).trace = setExpressionCalls st.trace ∧
    isReadyWrites (applySettingsIndividually env st).trace = isReadyWrites st.trace ∧
    isFullyReadyWrites (applySettingsIndividually env st).trace = isFullyReadyWrites st.trace ∧
    (applySettingsIndividually env st).isReady = st.isReady ∧
    (applySettingsIndividually env st).isFullyReady = st.isFullyReady ∧
    (applySettingsIndividually env st).winCalculatorReady = st.winCalculatorReady ∧
    (applySettingsIndividually env st).winCalculatorFullyReady = st.winCalculatorFullyReady ∧
    (applySettingsIndividually env st).calculator.map Widget.exprs
        = st.calculator.map Widget.exprs ∧
    (applySettingsIndividually env st).seCount = st.seCount := by
  cases h1 : env.updateSettingsThrows st.usCount fallbackDegree <;>
  cases h2 : env.updateSettingsThrows (st.usCount + 1) fallbackXAxis <;>
  cases h3 : env.setMathBoundsThrows st.mbCount DEFAULT_BOUNDS <;>
    simp [applySettingsIndividually, settingsToTry, tryStep, doUpdateSettings, doSetMathBounds,
      h1, h2, h3, updateSettingsCalls, setMathBoundsCalls, setExpressionCalls, isReadyWrites,
      isFullyReadyWrites, List.filterMap_append, Option.map_map, applyUpdate,
      Function.comp_def]

end DesmosCalc

namespace DesmosCalc

/-! ### Facts about the settings phase body -/

/-- On every path (batch success or fallback), the settings phase makes no
`setExpression` call, does not touch the registered expressions, the
`setExpression` counter, the fully-ready flag or its global, and writes
no fully-ready flag event. -/
theorem settingsBody_facts (env : Env) (st : RunState) :
    setExpressionCalls (settingsBody env st).trace = setExpressionCalls st.trace ∧
    (settingsBody env st).calculator.map Widget.exprs = st.calculator.map Widget.exprs ∧
    (settingsBody env st).seCount = st.seCount ∧
    (settingsBody env st).isFullyReady = st.isFullyReady ∧
    (settingsBody env st).winCalculatorFullyReady = st.winCalculatorFullyReady ∧
    isFullyReadyWrites (settingsBody env st).trace = isFullyReadyWrites st.trace := by
  obtain ⟨-, -, a3, -, a5, -, a7, -, a9, a10, a11⟩ :=
    applySettingsIndividually_facts env
      (emit (doUpdateSettings env (emits st [Event.scheduleTimer 500,
          Event.log "Applying calculator settings..."]) DEFAULT_SETTINGS).1
        (Event.logError "Error applying settings:"))
  obtain ⟨-, -, b3, -, b5, -, b7, -, b9, b10, b11⟩ :=
    applySettingsIndividually_facts env
      (emit (doSetMathBounds env (doUpdateSettings env (emits st [Event.scheduleTimer 500,
          Event.log "Applying calculator settings..."]) DEFAULT_SETTINGS).1 DEFAULT_BOUNDS).1
        (Event.logError "Error applying settings:"))
  cases hu : env.updateSettingsThrows st.usCount DEFAULT_SETTINGS <;>
  cases hb : env.setMathBoundsThrows st.mbCount DEFAULT_BOUNDS <;>
    simp_all [settingsBody, doUpdateSettings, doSetMathBounds, logSettingsStatus, emit, emits,
      setExpressionCalls, isFullyReadyWrites, List.filterMap_append, Option.map_map,
      applyUpdate, Function.comp_def]

/-- The settings-ready flag after the settings phase: it is set exactly
when the batch path succeeded (neither the batch `updateSettings` nor the
batch `setMathBounds` call threw). -/
theorem settingsBody_isReady (env : Env) (st : RunState) :
    (settingsBody env st).isReady =
      (st.isReady || (!(env.updateSettingsThrows st.usCount DEFAULT_SETTINGS)
        && !(env.setMathBoundsThrows st.mbCount DEFAULT_BOUNDS))) := by
  obtain ⟨-, -, -, -, -, a6, -, -, -, -, -⟩ :=
    applySettingsIndividually_facts env
      (emit (doUpdateSettings env (emits st [Event.scheduleTimer 500,
          Event.log "Applying calculator settings..."]) DEFAULT_SETTINGS).1
        (Event.logError "Error applying settings:"))
  obtain ⟨-, -, -, -, -, b6, -, -, -, -, -⟩ :=
    applySettingsIndividually_facts env
      (emit (doSetMathBounds env (doUpdateSettings env (emits st [Event.scheduleTimer 500,
          Event.log "Applying calculator settings..."]) DEFAULT_SETTINGS).1 DEFAULT_BOUNDS).1
        (Event.logError "Error applying settings:"))
  cases hu : env.updateSettingsThrows st.usCount DEFAULT_SETTINGS <;>
  cases hb : env.setMathBoundsThrows st.mbCount DEFAULT_BOUNDS <;>
    simp_all [settingsBody, doUpdateSettings, doSetMathBounds, logSettingsStatus, emit, emits]

/-- The settings-ready writes of the settings phase: a single `true` write
on the batch-success path, none on the fallback paths. -/
theorem settingsBody_readyWrites (env : Env) (st : RunState) :
    isReadyWrites (settingsBody env st).trace = isReadyWrites st.trace ++
      (if env.updateSettingsThrows st.usCount DEFAULT_SETTINGS = false ∧
          env.setMathBoundsThrows st.mbCount DEFAULT_BOUNDS = false then [true] else []) := by
  obtain ⟨-, -, -, a4, -, -, -, -, -, -, -⟩ :=
    applySettingsIndividually_facts env
      (emit (doUpdateSettings env (emits st [Event.scheduleTimer 500,
          Event.log "Applying calculator settings..."]) DEFAULT_SETTINGS).1
        (Event.logError "Error applying settings:"))
  obtain ⟨-, -, -, b4, -, -, -, -, -, -, -⟩ :=
    applySettingsIndividually_facts env
      (emit (doSetMathBounds env (doUpdateSettings env (emits st [Event.scheduleTimer 500,
          Event.log "Applying calculator settings..."]) DEFAULT_SETTINGS).1 DEFAULT_BOUNDS).1
        (Event.logError "Error applying settings:"))
  cases hu : env.updateSettingsThrows st.usCount DEFAULT_SETTINGS <;>
  cases hb : env.setMathBoundsThrows st.mbCount DEFAULT_BOUNDS <;>
    simp_all [settingsBody, doUpdateSettings, doSetMathBounds, logSettingsStatus, emit, emits,
      isReadyWrites, List.filterMap_append]

/-- The `updateSettings` calls of the settings phase: the batch call alone
on the batch-success path, the batch call plus the two individual fallback
keys whenever the fallback ran. -/
theorem settingsBody_usCalls (env : Env) (st : RunState) :
    updateSettingsCalls (settingsBody env st).trace = updateSettingsCalls st.trace ++
      (if env.updateSettingsThrows st.usCount DEFAULT_SETTINGS = true ∨
          env.setMathBoundsThrows st.mbCount DEFAULT_BOUNDS = true then
        [DEFAULT_SETTINGS, fallbackDegree, fallbackXAxis] else [DEFAULT_SETTINGS]) := by
  obtain ⟨a1, -, -, -, -, -, -, -, -, -, -⟩ :=
    applySettingsIndividually_facts env
      (emit (doUpdateSettings env (emits st [Event.scheduleTimer 500,
          Event.log "Applying calculator settings..."]) DEFAULT_SETTINGS).1
        (Event.logError "Error applying settings:"))
  obtain ⟨b1, -, -, -, -, -, -, -, -, -, -⟩ :=
    applySettingsIndividually_facts env
      (emit (doSetMathBounds env (doUpdateSettings env (emits st [Event.scheduleTimer 500,
          Event.log "Applying calculator settings..."]) DEFAULT_SETTINGS).1 DEFAULT_BOUNDS).1
        (Event.logError "Error applying settings:"))
  cases hu : env.updateSettingsThrows st.usCount DEFAULT_SETTINGS <;>
  cases hb : env.setMathBoundsThrows st.mbCount DEFAULT_BOUNDS <;>
    simp_all [settingsBody, doUpdateSettings, doSetMathBounds, logSettingsStatus, emit, emits,
      updateSettingsCalls, List.filterMap_append]

/-- The `setMathBounds` calls of the settings phase: exactly one on the
batch-success path and on the batch-`updateSettings`-failure path, exactly
two (the failed batch call plus the fallback retry) when the batch bounds
call threw. -/
theorem settingsBody_mbCalls (env : Env) (st : RunState) :
    setMathBoundsCalls (settingsBody env st).trace = setMathBoundsCalls st.trace ++
      (if env.updateSettingsThrows st.usCount DEFAULT_SETTINGS = false ∧
          env.setMathBoundsThrows st.mbCount DEFAULT_BOUNDS = true then
        [DEFAULT_BOUNDS, DEFAULT_BOUNDS] else [DEFAULT_BOUNDS]) := by
  obtain ⟨-, a2, -, -, -, -, -, -, -, -, -⟩ :=
    applySettingsIndividually_facts env
      (emit (doUpdateSettings env (emits st [Event.scheduleTimer 500,
          Event.log "Applying calculator settings..."]) DEFAULT_SETTINGS).1
        (Event.logError "Error applying settings:"))
  obtain ⟨-, b2, -, -, -, -, -, -, -, -, -⟩ :=
    applySettingsIndividually_facts env
      (emit (doSetMathBounds env (doUpdateSettings env (emits st [Event.scheduleTimer 500,
          Event.log "Applying calculator settings..."]) DEFAULT_SETTINGS).1 DEFAULT_BOUNDS).1
        (Event.logError "Error applying settings:"))
  cases hu : env.updateSettingsThrows st.usCount DEFAULT_SETTINGS <;>
  cases hb : env.setMathBoundsThrows st.mbCount DEFAULT_BOUNDS <;>
    simp_all [settingsBody, doUpdateSettings, doSetMathBounds, logSettingsStatus, emit, emits,
      setMathBoundsCalls, List.filterMap_append]

/-- On the batch-success path the widget snapshot holds exactly the default
settings and the default bounds afterwards, whatever it held before. -/
theorem settingsBody_success_state (env : Env) (st : RunState)
    (hu : env.updateSettingsThrows st.usCount DEFAULT_SETTINGS = false)
    (hb : env.setMathBoundsThrows st.mbCount DEFAULT_BOUNDS = false) :
    (settingsBody env st).calculator.map Widget.settings =
      st.calculator.map (fun _ =>
        { degreeMode := false, xAxisScale := "logarithmic", yAxisScale := "linear" }) ∧
    (settingsBody env st).calculator.map Widget.bounds = st.calculator.map fun _ => DEFAULT_BOUNDS := by
  have hu' : env.updateSettingsThrows st.usCount
      { degreeMode := some false, xAxisScale := some "logarithmic",
        yAxisScale := some "linear" } = false := hu
  simp [settingsBody, doUpdateSettings, doSetMathBounds, logSettingsStatus, emit, emits,
    hu', hb, Option.map_map, applyUpdate, Function.comp_def, DEFAULT_SETTINGS]

end DesmosCalc

namespace DesmosCalc

/-! ### Pointwise evaluation of the trace projections -/

theorem updateSettingsCalls_nil : updateSettingsCalls [] = [] := rfl

theorem setMathBoundsCalls_nil : setMathBoundsCalls [] = [] := rfl

theorem setExpressionCalls_nil : setExpressionCalls [] = [] := rfl

theorem isReadyWrites_nil : isReadyWrites [] = [] := rfl

theorem isFullyReadyWrites_nil : isFullyReadyWrites [] = [] := rfl

theorem timersScheduled_nil : timersScheduled [] = [] := rfl

theorem updateSettingsCalls_cons (ev : Event) (tr : List Event) :
    updateSettingsCalls (ev :: tr) =
      (match ev with | Event.callUpdateSettings s _ => [s] | _ => []) ++
        updateSettingsCalls tr := by
  cases ev <;> simp [updateSettingsCalls]

theorem setMathBoundsCalls_cons (ev : Event) (tr : List Event) :
    setMathBoundsCalls (ev :: tr) =
      (match ev with | Event.callSetMathBounds b _ => [b] | _ => []) ++
        setMathBoundsCalls tr := by
  cases ev <;> simp [setMathBoundsCalls]

theorem setExpressionCalls_cons (ev : Event) (tr : List Event) :
    setExpressionCalls (ev :: tr) =
      (match ev with | Event.callSetExpression e _ => [e] | _ => []) ++
        setExpressionCalls tr := by
  cases ev <;> simp [setExpressionCalls]

theorem isReadyWrites_cons (ev : Event) (tr : List Event) :
    isReadyWrites (ev :: tr) =
      (match ev with | Event.setIsReady v => [v] | _ => []) ++ isReadyWrites tr := by
  cases ev <;> simp [isReadyWrites]

theorem isFullyReadyWrites_cons (ev : Event) (tr : List Event) :
    isFullyReadyWrites (ev :: tr) =
      (match ev with | Event.setIsFullyReady v => [v] | _ => []) ++
        isFullyReadyWrites tr := by
  cases ev <;> simp [isFullyReadyWrites]

theorem timersScheduled_cons (ev : Event) (tr : List Event) :
    timersScheduled (ev :: tr) =
      (match ev with | Event.scheduleTimer ms => [ms] | _ => []) ++ timersScheduled tr := by
  cases ev <;> simp [timersScheduled]

/-! ### One-step lemmas for `setExpression` -/

theorem doSetExpression_snd (env : Env) (st : RunState) (e : ExprDef) :
    (doSetExpression env st e).2 = env.setExpressionThrows st.seCount e := rfl

theorem doSetExpression_trace (env : Env) (st : RunState) (e : ExprDef) :
    (doSetExpression env st e).1.trace =
      st.trace ++ [Event.callSetExpression e (env.setExpressionThrows st.seCount e)] := rfl

theorem doSetExpression_isReady (env : Env) (st : RunState) (e : ExprDef) :
    (doSetExpression env st e).1.isReady = st.isReady := rfl

theorem doSetExpression_winReady (env : Env) (st : RunState) (e : ExprDef) :
    (doSetExpression env st e).1.winCalculatorReady = st.winCalculatorReady := rfl

theorem doSetExpression_isFullyReady (env : Env) (st : RunState) (e : ExprDef) :
    (doSetExpression env st e).1.isFullyReady = st.isFullyReady := rfl

theorem doSetExpression_winFully (env : Env) (st : RunState) (e : ExprDef) :
    (doSetExpression env st e).1.winCalculatorFullyReady = st.winCalculatorFullyReady := rfl

theorem doSetExpression_settings (env : Env) (st : RunState) (e : ExprDef) :
    (doSetExpression env st e).1.calculator.map Widget.settings
      = st.calculator.map Widget.settings := by
  cases h : env.setExpressionThrows st.seCount e <;>
    simp [doSetExpression, h, Option.map_map, Function.comp_def]

theorem doSetExpression_bounds (env : Env) (st : RunState) (e : ExprDef) :
    (doSetExpression env st e).1.calculator.map Widget.bounds
      = st.calculator.map Widget.bounds := by
  cases h : env.setExpressionThrows st.seCount e <;>
    simp [doSetExpression, h, Option.map_map, Function.comp_def]

/-! ### One-step lemmas for the unit loop body -/

theorem unitStep_trace (env : Env) (i : Nat) (u : ExprDef) (st : RunState) :
    (unitStep env i u st).trace = st.trace ++
      [Event.callSetExpression u (env.setExpressionThrows st.seCount u),
       if env.setExpressionThrows st.seCount u then
         Event.logError ("Unit " ++ toString (i + 1) ++ " failed:")
       else Event.log ("Unit " ++ toString (i + 1) ++ " added successfully")] := by
  simp [unitStep, emit, doSetExpression_trace, doSetExpression_snd]

theorem unitStep_isReady (env : Env) (i : Nat) (u : ExprDef) (st : RunState) :
    (unitStep env i u st).isReady = st.isReady := rfl

theorem unitStep_winReady (env : Env) (i : Nat) (u : ExprDef) (st : RunState) :
    (unitStep env i u st).winCalculatorReady = st.winCalculatorReady := rfl

theorem unitStep_isFullyReady (env : Env) (i : Nat) (u : ExprDef) (st : RunState) :
    (unitStep env i u st).isFullyReady = st.isFullyReady := rfl

theorem unitStep_winFully (env : Env) (i : Nat) (u : ExprDef) (st : RunState) :
    (unitStep env i u st).winCalculatorFullyReady = st.winCalculatorFullyReady := rfl

theorem unitStep_settings (env : Env) (i : Nat) (u : ExprDef) (st : RunState) :
    (unitStep env i u st).calculator.map Widget.settings
      = st.calculator.map Widget.settings := by
  simp [unitStep, emit, doSetExpression_settings]

theorem unitStep_bounds (env : Env) (i : Nat) (u : ExprDef) (st : RunState) :
    (unitStep env i u st).calculator.map Widget.bounds
      = st.calculator.map Widget.bounds := by
  simp [unitStep, emit, doSetExpression_bounds]

end DesmosCalc

namespace DesmosCalc

/-! ### Facts about the expression phase -/

/-- The core-expression batch (whatever its throw behavior): its trace
delta contains only `setExpression` calls — no `updateSettings`,
`setMathBounds`, timer or flag-write event — and the settings-phase state
(flags, globals, snapshot settings and bounds) is untouched. -/
theorem addCoreAux_facts (env : Env) (es : List ExprDef) : ∀ (st : RunState),
    (∃ d, (addCoreAux env es st).1.trace = st.trace ++ d) ∧
    updateSettingsCalls (addCoreAux env es st).1.trace = updateSettingsCalls st.trace ∧
    setMathBoundsCalls (addCoreAux env es st).1.trace = setMathBoundsCalls st.trace ∧
    isReadyWrites (addCoreAux env es st).1.trace = isReadyWrites st.trace ∧
    isFullyReadyWrites (addCoreAux env es st).1.trace = isFullyReadyWrites st.trace ∧
    timersScheduled (addCoreAux env es st).1.trace = timersScheduled st.trace ∧
    (addCoreAux env es st).1.isReady = st.isReady ∧
    (addCoreAux env es st).1.winCalculatorReady = st.winCalculatorReady ∧
    (addCoreAux env es st).1.isFullyReady = st.isFullyReady ∧
    (addCoreAux env es st).1.winCalculatorFullyReady = st.winCalculatorFullyReady ∧
    (addCoreAux env es st).1.calculator.map Widget.settings
        = st.calculator.map Widget.settings ∧
    (addCoreAux env es st).1.calculator.map Widget.bounds
        = st.calculator.map Widget.bounds := by
  induction es with
  | nil =>
    intro st
    exact ⟨⟨[], by simp [addCoreAux]⟩, by simp [addCoreAux], by simp [addCoreAux],
      by simp [addCoreAux], by simp [addCoreAux], by simp [addCoreAux], rfl, rfl, rfl, rfl,
      rfl, rfl⟩
  | cons e es ih =>
    intro st
    cases h : env.setExpressionThrows st.seCount e
    case true =>
      have heq : addCoreAux env (e :: es) st = ((doSetExpression env st e).1, true) := by
        simp [addCoreAux, doSetExpression_snd, h]
      rw [heq]
      refine ⟨⟨[Event.callSetExpression e true], ?_⟩, ?_, ?_, ?_, ?_, ?_, ?_, ?_, ?_, ?_, ?_, ?_⟩ <;>
        simp [doSetExpression_trace, doSetExpression_isReady, doSetExpression_winReady,
          doSetExpression_isFullyReady, doSetExpression_winFully, doSetExpression_settings,
          doSetExpression_bounds, h, updateSettingsCalls_append, updateSettingsCalls_cons,
          updateSettingsCalls_nil, setMathBoundsCalls_append, setMathBoundsCalls_cons,
          setMathBoundsCalls_nil, isReadyWrites_append, isReadyWrites_cons, isReadyWrites_nil,
          isFullyReadyWrites_append, isFullyReadyWrites_cons, isFullyReadyWrites_nil,
          timersScheduled_append, timersScheduled_cons, timersScheduled_nil]
    case false =>
      have heq : addCoreAux env (e :: es) st = addCoreAux env es (doSetExpression env st e).1 := by
        simp [addCoreAux, doSetExpression_snd, h]
      rw [heq]
      obtain ⟨⟨d, hd1⟩, hd2, hd3, hd4, hd5, hd6, hd7, hd8, hd9, hd10, hd11, hd12⟩ :=
        ih (doSetExpression env st e).1
      refine ⟨⟨Event.callSetExpression e false :: d,
          by simp [hd1, doSetExpression_trace, h]⟩, ?_, ?_, ?_, ?_, ?_, ?_, ?_, ?_, ?_, ?_, ?_⟩ <;>
        simp [hd2, hd3, hd4, hd5, hd6, hd7, hd8, hd9, hd10, hd11, hd12,
          doSetExpression_trace, doSetExpression_isReady, doSetExpression_winReady,
          doSetExpression_isFullyReady, doSetExpression_winFully, doSetExpression_settings,
          doSetExpression_bounds, h, updateSettingsCalls_append, updateSettingsCalls_cons,
          updateSettingsCalls_nil, setMathBoundsCalls_append, setMathBoundsCalls_cons,
          setMathBoundsCalls_nil, isReadyWrites_append, isReadyWrites_cons, isReadyWrites_nil,
          isFullyReadyWrites_append, isFullyReadyWrites_cons, isFullyReadyWrites_nil,
          timersScheduled_append, timersScheduled_cons, timersScheduled_nil]

/-- The unit-definition loop (whatever its throw behavior): every unit in
the list is attempted exactly once, in order; no other external call, no
timer and no readiness-flag write happens, and the flags, globals,
snapshot settings and bounds are untouched. -/
theorem addUnitsAux_facts (env : Env) (es : List ExprDef) : ∀ (i : Nat) (st : RunState),
    (∃ d, (addUnitsAux env i es st).trace = st.trace ++ d) ∧
    setExpressionCalls (addUnitsAux env i es st).trace = setExpressionCalls st.trace ++ es ∧
    updateSettingsCalls (addUnitsAux env i es st).trace = updateSettingsCalls st.trace ∧
    setMathBoundsCalls (addUnitsAux env i es st).trace = setMathBoundsCalls st.trace ∧
    isReadyWrites (addUnitsAux env i es st).trace = isReadyWrites st.trace ∧
    isFullyReadyWrites (addUnitsAux env i es st).trace = isFullyReadyWrites st.trace ∧
    timersScheduled (addUnitsAux env i es st).trace = timersScheduled st.trace ∧
    (addUnitsAux env i es st).isReady = st.isReady ∧
    (addUnitsAux env i es st).winCalculatorReady = st.winCalculatorReady ∧
    (addUnitsAux env i es st).isFullyReady = st.isFullyReady ∧
    (addUnitsAux env i es st).winCalculatorFullyReady = st.winCalculatorFullyReady ∧
    (addUnitsAux env i es st).calculator.map Widget.settings
        = st.calculator.map Widget.settings ∧
    (addUnitsAux env i es st).calculator.map Widget.bounds
        = st.calculator.map Widget.bounds := by
  induction es with
  | nil =>
    intro i st
    exact ⟨⟨[], by simp [addUnitsAux]⟩, by simp [addUnitsAux], by simp [addUnitsAux],
      by simp [addUnitsAux], by simp [addUnitsAux], by simp [addUnitsAux],
      by simp [addUnitsAux], rfl, rfl, rfl, rfl, rfl, rfl⟩
  | cons u us ih =>
    intro i st
    obtain ⟨⟨d, hd1⟩, hd2, hd3, hd4, hd5, hd6, hd7, hd8, hd9, hd10, hd11, hd12, hd13⟩ :=
      ih (i + 1) (unitStep env i u st)
    cases h : env.setExpressionThrows st.seCount u
    case false =>
      refine ⟨⟨Event.callSetExpression u false ::
          Event.log ("Unit " ++ toString (i + 1) ++ " added successfully") :: d,
          by simp [addUnitsAux, hd1, unitStep_trace, h]⟩,
          ?_, ?_, ?_, ?_, ?_, ?_, ?_, ?_, ?_, ?_, ?_, ?_⟩ <;>
        simp [addUnitsAux, hd2, hd3, hd4, hd5, hd6, hd7, hd8, hd9, hd10, hd11, hd12, hd13,
          unitStep_trace, unitStep_isReady, unitStep_winReady, unitStep_isFullyReady,
          unitStep_winFully, unitStep_settings, unitStep_bounds, h,
          updateSettingsCalls_append, updateSettingsCalls_cons, updateSettingsCalls_nil,
          setMathBoundsCalls_append, setMathBoundsCalls_cons, setMathBoundsCalls_nil,
          setExpressionCalls_append, setExpressionCalls_cons, setExpressionCalls_nil,
          isReadyWrites_append, isReadyWrites_cons, isReadyWrites_nil,
          isFullyReadyWrites_append, isFullyReadyWrites_cons, isFullyReadyWrites_nil,
          timersScheduled_append, timersScheduled_cons, timersScheduled_nil]
    case true =>
      refine ⟨⟨Event.callSetExpression u true ::
          Event.logError ("Unit " ++ toString (i + 1) ++ " failed:") :: d,
          by simp [addUnitsAux, hd1, unitStep_trace, h]⟩,
          ?_, ?_, ?_, ?_, ?_, ?_, ?_, ?_, ?_, ?_, ?_, ?_⟩ <;>
        simp [addUnitsAux, hd2, hd3, hd4, hd5, hd6, hd7, hd8, hd9, hd10, hd11, hd12, hd13,
          unitStep_trace, unitStep_isReady, unitStep_winReady, unitStep_isFullyReady,
          unitStep_winFully, unitStep_settings, unitStep_bounds, h,
          updateSettingsCalls_append, updateSettingsCalls_cons, updateSettingsCalls_nil,
          setMathBoundsCalls_append, setMathBoundsCalls_cons, setMathBoundsCalls_nil,
          setExpressionCalls_append, setExpressionCalls_cons, setExpressionCalls_nil,
          isReadyWrites_append, isReadyWrites_cons, isReadyWrites_nil,
          isFullyReadyWrites_append, isFullyReadyWrites_cons, isFullyReadyWrites_nil,
          timersScheduled_append, timersScheduled_cons, timersScheduled_nil]

end DesmosCalc

namespace DesmosCalc

/-! ### Projections of `emit` and `emits` -/

theorem emit_trace (st : RunState) (e : Event) : (emit st e).trace = st.trace ++ [e] := rfl

theorem emits_trace (st : RunState) (es : List Event) : (emits st es).trace = st.trace ++ es := rfl

theorem emit_isReady (st : RunState) (e : Event) : (emit st e).isReady = st.isReady := rfl

theorem emits_isReady (st : RunState) (es : List Event) : (emits st es).isReady = st.isReady := rfl

theorem emit_winReady (st : RunState) (e : Event) :
    (emit st e).winCalculatorReady = st.winCalculatorReady := rfl

theorem emits_winReady (st : RunState) (es : List Event) :
    (emits st es).winCalculatorReady = st.winCalculatorReady := rfl

theorem emit_isFullyReady (st : RunState) (e : Event) :
    (emit st e).isFullyReady = st.isFullyReady := rfl

theorem emits_isFullyReady (st : RunState) (es : List Event) :
    (emits st es).isFullyReady = st.isFullyReady := rfl

theorem emit_winFully (st : RunState) (e : Event) :
    (emit st e).winCalculatorFullyReady = st.winCalculatorFullyReady := rfl

theorem emits_winFully (st : RunState) (es : List Event) :
    (emits st es).winCalculatorFullyReady = st.winCalculatorFullyReady := rfl

theorem emit_calculator (st : RunState) (e : Event) : (emit st e).calculator = st.calculator := rfl

theorem emits_calculator (st : RunState) (es : List Event) :
    (emits st es).calculator = st.calculator := rfl

theorem emits_seCount (st : RunState) (es : List Event) : (emits st es).seCount = st.seCount := rfl

/-- The whole expression phase (whatever the environment does): the trace
only grows, it contains no `updateSettings` or `setMathBounds` call and no
settings-ready write, every fully-ready write it adds writes `true`, it
schedules exactly the one 200ms timer, and the settings-ready flag, its
global, and the snapshot settings and bounds are untouched. -/
theorem addExpressions_facts (env : Env) (st : RunState) :
    (∃ d, (addExpressions env st).trace = st.trace ++ d) ∧
    updateSettingsCalls (addExpressions env st).trace = updateSettingsCalls st.trace ∧
    setMathBoundsCalls (addExpressions env st).trace = setMathBoundsCalls st.trace ∧
    isReadyWrites (addExpressions env st).trace = isReadyWrites st.trace ∧
    (∃ zs, isFullyReadyWrites (addExpressions env st).trace
        = isFullyReadyWrites st.trace ++ zs ∧ ∀ v ∈ zs, v = true) ∧
    timersScheduled (addExpressions env st).trace = timersScheduled st.trace ++ [200] ∧
    (addExpressions env st).isReady = st.isReady ∧
    (addExpressions env st).winCalculatorReady = st.winCalculatorReady ∧
    (addExpressions env st).calculator.map Widget.settings = st.calculator.map Widget.settings ∧
    (addExpressions env st).calculator.map Widget.bounds = st.calculator.map Widget.bounds := by
  obtain ⟨⟨dc, hc1⟩, hc2, hc3, hc4, hc5, hc6, hc7, hc8, hc9, hc10, hc11, hc12⟩ :=
    addCoreAux_facts env coreExpressions
      (emits st [Event.scheduleTimer 200, Event.log "Adding expressions..."])
  rw [hc1, updateSettingsCalls_append] at hc2
  rw [hc1, setMathBoundsCalls_append] at hc3
  rw [hc1, isReadyWrites_append] at hc4
  rw [hc1, isFullyReadyWrites_append] at hc5
  rw [hc1, timersScheduled_append] at hc6
  replace hc2 := List.append_cancel_left (hc2.trans (List.append_nil _).symm)
  replace hc3 := List.append_cancel_left (hc3.trans (List.append_nil _).symm)
  replace hc4 := List.append_cancel_left (hc4.trans (List.append_nil _).symm)
  replace hc5 := List.append_cancel_left (hc5.trans (List.append_nil _).symm)
  replace hc6 := List.append_cancel_left (hc6.trans (List.append_nil _).symm)
  obtain ⟨⟨du, hu1⟩, hu2, hu3, hu4, hu5, hu6, hu7, hu8, hu9, hu10, hu11, hu12, hu13⟩ :=
    addUnitsAux_facts env UNIT_DEFINITIONS 0
      (addCoreAux env coreExpressions
        (emits st [Event.scheduleTimer 200, Event.log "Adding expressions..."])).1
  rw [hu1, setExpressionCalls_append] at hu2
  rw [hu1, updateSettingsCalls_append] at hu3
  rw [hu1, setMathBoundsCalls_append] at hu4
  rw [hu1, isReadyWrites_append] at hu5
  rw [hu1, isFullyReadyWrites_append] at hu6
  rw [hu1, timersScheduled_append] at hu7
  replace hu2 := List.append_cancel_left hu2
  replace hu3 := List.append_cancel_left (hu3.trans (List.append_nil _).symm)
  replace hu4 := List.append_cancel_left (hu4.trans (List.append_nil _).symm)
  replace hu5 := List.append_cancel_left (hu5.trans (List.append_nil _).symm)
  replace hu6 := List.append_cancel_left (hu6.trans (List.append_nil _).symm)
  replace hu7 := List.append_cancel_left (hu7.trans (List.append_nil _).symm)
  cases hthrew : (addCoreAux env coreExpressions
      (emits st [Event.scheduleTimer 200, Event.log "Adding expressions..."])).2
  case true =>
    refine ⟨⟨Event.scheduleTimer 200 :: Event.log "Adding expressions..." :: dc ++
        [Event.logError "Error adding expressions:"], ?_⟩,
        ?_, ?_, ?_, ⟨[], ?_, by simp⟩, ?_, ?_, ?_, ?_, ?_⟩ <;>
      simp [addExpressions, addCoreExpressions, hthrew,
        emit_trace, emits_trace, emit_isReady, emits_isReady, emit_winReady, emits_winReady,
        emit_calculator, emits_calculator,
        hc1, hc2, hc3, hc4, hc5, hc6, hc7, hc8, hc9, hc10, hc11, hc12,
        updateSettingsCalls_append, updateSettingsCalls_cons, updateSettingsCalls_nil,
        setMathBoundsCalls_append, setMathBoundsCalls_cons, setMathBoundsCalls_nil,
        isReadyWrites_append, isReadyWrites_cons, isReadyWrites_nil,
        isFullyReadyWrites_append, isFullyReadyWrites_cons, isFullyReadyWrites_nil,
        timersScheduled_append, timersScheduled_cons, timersScheduled_nil]
  case false =>
    refine ⟨⟨Event.scheduleTimer 200 :: Event.log "Adding expressions..." :: dc ++ du ++
        [Event.log "All expressions added successfully!", Event.setIsFullyReady true,
         Event.setGlobalCalculatorFullyReady true], ?_⟩,
        ?_, ?_, ?_, ⟨[true], ?_, by simp⟩, ?_, ?_, ?_, ?_, ?_⟩ <;>
      simp [addExpressions, addCoreExpressions, addUnitDefinitions, hthrew,
        emit_trace, emits_trace, emit_isReady, emits_isReady, emit_winReady, emits_winReady,
        emit_calculator, emits_calculator,
        hc1, hc2, hc3, hc4, hc5, hc6, hc7, hc8, hc9, hc10, hc11, hc12,
        hu1, hu2, hu3, hu4, hu5, hu6, hu7, hu8, hu9, hu10, hu11, hu12, hu13,
        updateSettingsCalls_append, updateSettingsCalls_cons, updateSettingsCalls_nil,
        setMathBoundsCalls_append, setMathBoundsCalls_cons, setMathBoundsCalls_nil,
        isReadyWrites_append, isReadyWrites_cons, isReadyWrites_nil,
        isFullyReadyWrites_append, isFullyReadyWrites_cons, isFullyReadyWrites_nil,
        timersScheduled_append, timersScheduled_cons, timersScheduled_nil]

end DesmosCalc

namespace DesmosCalc

/-- When no registration in the list throws, the core batch completes
(returns no throw), registers every listed expression in order, and the
widget ends up with the list folded into its expressions by upsert. -/
theorem addCoreAux_ok (env : Env) (es : List ExprDef) : ∀ (st : RunState),
    (∀ n e, e ∈ es → env.setExpressionThrows n e = false) →
    (addCoreAux env es st).2 = false ∧
    setExpressionCalls (addCoreAux env es st).1.trace
        = setExpressionCalls st.trace ++ es ∧
    (addCoreAux env es st).1.calculator
        = st.calculator.map fun w => { w with exprs := es.foldl upsertExpr w.exprs } := by
  induction es with
  | nil =>
    intro st h
    refine ⟨rfl, by simp [addCoreAux], ?_⟩
    show st.calculator = _
    cases st.calculator <;> rfl
  | cons e es ih =>
    intro st h
    have he : env.setExpressionThrows st.seCount e = false := h st.seCount e (by simp)
    have heq : addCoreAux env (e :: es) st = addCoreAux env es (doSetExpression env st e).1 := by
      simp [addCoreAux, doSetExpression_snd, he]
    obtain ⟨ih1, ih2, ih3⟩ :=
      ih (doSetExpression env st e).1 (fun n x hx => h n x (by simp [hx]))
    refine ⟨by rw [heq]; exact ih1, ?_, ?_⟩
    · rw [heq, ih2, doSetExpression_trace, he]
      simp [setExpressionCalls_append, setExpressionCalls_cons, setExpressionCalls_nil]
    · rw [heq, ih3]
      simp [doSetExpression, he, Option.map_map, Function.comp_def]

/-- When no unit registration in the list throws, the unit loop adds every
listed unit to the widget by upsert. -/
theorem addUnitsAux_ok (env : Env) (es : List ExprDef) : ∀ (i : Nat) (st : RunState),
    (∀ n e, e ∈ es → env.setExpressionThrows n e = false) →
    (addUnitsAux env i es st).calculator
        = st.calculator.map fun w => { w with exprs := es.foldl upsertExpr w.exprs } := by
  induction es with
  | nil =>
    intro i st h
    show st.calculator = _
    cases st.calculator <;> rfl
  | cons u us ih =>
    intro i st h
    have he : env.setExpressionThrows st.seCount u = false := h st.seCount u (by simp)
    have hrec := ih (i + 1) (unitStep env i u st) (fun n x hx => h n x (by simp [hx]))
    rw [addUnitsAux, hrec]
    simp [unitStep, emit, doSetExpression, he, Option.map_map, Function.comp_def]

end DesmosCalc

namespace DesmosCalc

/-- Folding the fourteen fixed descriptors into an empty expression list by
upsert registers exactly those fourteen descriptors, in declared order
(all ids are distinct, so every upsert appends). -/
theorem foldl_upsert_fixed :
    (coreExpressions ++ UNIT_DEFINITIONS).foldl upsertExpr []
      = coreExpressions ++ UNIT_DEFINITIONS := by decide

/-- When the environment never makes a `setExpression` call throw, the
expression phase registers the six core expressions followed by the eight
unit definitions (in order, one call each), sets the fully-ready flag and
publishes the fully-ready global. -/
theorem addExpressions_success (env : Env) (st : RunState)
    (hse : ∀ n e, env.setExpressionThrows n e = false) :
    (addExpressions env st).calculator
        = st.calculator.map (fun w =>
            { w with exprs := (coreExpressions ++ UNIT_DEFINITIONS).foldl upsertExpr w.exprs }) ∧
    (addExpressions env st).isFullyReady = true ∧
    (addExpressions env st).winCalculatorFullyReady = some true ∧
    setExpressionCalls (addExpressions env st).trace
        = setExpressionCalls st.trace ++ (coreExpressions ++ UNIT_DEFINITIONS) := by
  obtain ⟨hc1, hc2, hc3⟩ :=
    addCoreAux_ok env coreExpressions
      (emits st [Event.scheduleTimer 200, Event.log "Adding expressions..."])
      (fun n e _ => hse n e)
  have hcalc :=
    addUnitsAux_ok env UNIT_DEFINITIONS 0
      (addCoreAux env coreExpressions
        (emits st [Event.scheduleTimer 200, Event.log "Adding expressions..."])).1
      (fun n e _ => hse n e)
  obtain ⟨⟨du, hu1⟩, hu2, -, -, -, -, -, -, -, -, -, -, -⟩ :=
    addUnitsAux_facts env UNIT_DEFINITIONS 0
      (addCoreAux env coreExpressions
        (emits st [Event.scheduleTimer 200, Event.log "Adding expressions..."])).1
  refine ⟨?_, ?_, ?_, ?_⟩ <;>
    simp [addExpressions, addCoreExpressions, addUnitDefinitions, hc1, hc2, hc3, hcalc,
      hu2, emits_trace, emits_calculator, emits_isFullyReady, emits_winFully,
      setExpressionCalls_append, setExpressionCalls_cons, setExpressionCalls_nil,
      Option.map_map, Function.comp_def, List.foldl_append]

/-- When no core registration throws (whatever the units do), the
expression phase attempts the six core expressions and then all eight
units, in order. -/
theorem addExpressions_coreOk (env : Env) (st : RunState)
    (hcore : ∀ n e, e ∈ coreExpressions → env.setExpressionThrows n e = false) :
    setExpressionCalls (addExpressions env st).trace
        = setExpressionCalls st.trace ++ (coreExpressions ++ UNIT_DEFINITIONS) := by
  obtain ⟨hc1, hc2, -⟩ :=
    addCoreAux_ok env coreExpressions
      (emits st [Event.scheduleTimer 200, Event.log "Adding expressions..."]) hcore
  obtain ⟨-, hu2, -, -, -, -, -, -, -, -, -, -, -⟩ :=
    addUnitsAux_facts env UNIT_DEFINITIONS 0
      (addCoreAux env coreExpressions
        (emits st [Event.scheduleTimer 200, Event.log "Adding expressions..."])).1
  simp [addExpressions, addCoreExpressions, addUnitDefinitions, hc1, hc2, hu2,
    emits_trace, setExpressionCalls_append, setExpressionCalls_cons, setExpressionCalls_nil]

/-- The run state right after a successful mount in `init`: the manager
has constructed the widget from the environment's initial snapshot,
published the debug global, and logged the two startup lines. -/
def postMountSt (env : Env) (id z : String) : RunState :=
  { elementId := id
    zLatex := z
    calculator := some { settings := env.initialSettings, bounds := env.initialBounds, exprs := [] }
    isReady := false
    isFullyReady := false
    winDesmosCalc := true
    winCalculatorReady := none
    winCalculatorFullyReady := none
    usCount := 0
    mbCount := 0
    seCount := 0
    trace := [Event.log "Initializing Desmos Calculator...",
      Event.createCalculator CALCULATOR_CONFIG, Event.publishDesmosCalc,
      Event.log "Calculator object available as window.desmosCalc for debugging"] }

/-- With a present mount element, `init` is the settings phase followed by
the expression phase, started from the post-mount state. -/
theorem init_found (env : Env) (id z : String) (h : env.elementExists id = true) :
    init env (initSt id z) = applySettings env (postMountSt env id z) := by
  simp [init, initSt, postMountSt, emit, emits, h]

end DesmosCalc

namespace DesmosCalc

/-! ### The formula parameter is dead: every stage commutes with replacing it -/

/-- Replace the stored (unused) formula string. -/
def setZ (st : RunState) (z : String) : RunState := { st with zLatex := z }

theorem emit_setZ (st : RunState) (e : Event) (z : String) :
    emit (setZ st z) e = setZ (emit st e) z := rfl

theorem emits_setZ (st : RunState) (es : List Event) (z : String) :
    emits (setZ st z) es = setZ (emits st es) z := rfl

theorem doUpdateSettings_setZ (env : Env) (st : RunState) (s : SettingsUpdate) (z : String) :
    doUpdateSettings env (setZ st z) s
      = (setZ (doUpdateSettings env st s).1 z, (doUpdateSettings env st s).2) := rfl

theorem doSetMathBounds_setZ (env : Env) (st : RunState) (b : Bounds) (z : String) :
    doSetMathBounds env (setZ st z) b
      = (setZ (doSetMathBounds env st b).1 z, (doSetMathBounds env st b).2) := rfl

theorem doSetExpression_setZ (env : Env) (st : RunState) (e : ExprDef) (z : String) :
    doSetExpression env (setZ st z) e
      = (setZ (doSetExpression env st e).1 z, (doSetExpression env st e).2) := rfl

theorem tryStep_setZ (env : Env) (st : RunState) (p : SettingsUpdate × String) (z : String) :
    tryStep env (setZ st z) p = setZ (tryStep env st p) z := rfl

theorem applySettingsIndividually_setZ (env : Env) (st : RunState) (z : String) :
    applySettingsIndividually env (setZ st z) = setZ (applySettingsIndividually env st) z := rfl

theorem logSettingsStatus_setZ (st : RunState) (z : String) :
    logSettingsStatus (setZ st z) = setZ (logSettingsStatus st) z := rfl

theorem unitStep_setZ (env : Env) (i : Nat) (u : ExprDef) (st : RunState) (z : String) :
    unitStep env i u (setZ st z) = setZ (unitStep env i u st) z := rfl

theorem settingsBody_setZ (env : Env) (st : RunState) (z : String) :
    settingsBody env (setZ st z) = setZ (settingsBody env st) z := by
  unfold settingsBody
  split
  case isTrue h =>
    have h' : (doUpdateSettings env (emits st [Event.scheduleTimer 500,
        Event.log "Applying calculator settings..."]) DEFAULT_SETTINGS).2 = true := h
    rw [if_pos h']
    rfl
  case isFalse h =>
    have h' : ¬ (doUpdateSettings env (emits st [Event.scheduleTimer 500,
        Event.log "Applying calculator settings..."]) DEFAULT_SETTINGS).2 = true := h
    rw [if_neg h']
    split
    case isTrue h2 =>
      have h2' : (doSetMathBounds env (doUpdateSettings env (emits st [Event.scheduleTimer 500,
          Event.log "Applying calculator settings..."]) DEFAULT_SETTINGS).1 DEFAULT_BOUNDS).2
          = true := h2
      rw [if_pos h2']
      rfl
    case isFalse h2 =>
      have h2' : ¬ (doSetMathBounds env (doUpdateSettings env (emits st [Event.scheduleTimer 500,
          Event.log "Applying calculator settings..."]) DEFAULT_SETTINGS).1 DEFAULT_BOUNDS).2
          = true := h2
      rw [if_neg h2']
      rfl

theorem addCoreAux_setZ (env : Env) (es : List ExprDef) : ∀ (st : RunState) (z : String),
    addCoreAux env es (setZ st z)
      = (setZ (addCoreAux env es st).1 z, (addCoreAux env es st).2) := by
  induction es with
  | nil => intro st z; rfl
  | cons e es ih =>
    intro st z
    show (if (doSetExpression env (setZ st z) e).2 then ((doSetExpression env (setZ st z) e).1, true)
      else addCoreAux env es (doSetExpression env (setZ st z) e).1) = _
    split
    case isTrue h =>
      have h' : (doSetExpression env st e).2 = true := h
      rw [addCoreAux, if_pos h']
      rfl
    case isFalse h =>
      have h' : ¬ (doSetExpression env st e).2 = true := h
      rw [addCoreAux, if_neg h']
      exact (congrArg (fun st' => addCoreAux env es st')
        (doSetExpression_setZ env st e z ▸ rfl)).trans (ih (doSetExpression env st e).1 z)

theorem addUnitsAux_setZ (env : Env) (es : List ExprDef) : ∀ (i : Nat) (st : RunState) (z : String),
    addUnitsAux env i es (setZ st z) = setZ (addUnitsAux env i es st) z := by
  induction es with
  | nil => intro i st z; rfl
  | cons u us ih =>
    intro i st z
    show addUnitsAux env (i + 1) us (unitStep env i u (setZ st z)) = _
    rw [unitStep_setZ]
    exact (ih (i + 1) (unitStep env i u st) z).trans rfl

theorem addExpressions_setZ (env : Env) (st : RunState) (z : String) :
    addExpressions env (setZ st z) = setZ (addExpressions env st) z := by
  unfold addExpressions
  split
  case isTrue h =>
    have h' : (addCoreExpressions env (emits st [Event.scheduleTimer 200,
        Event.log "Adding expressions..."])).2 = true := by
      have := addCoreAux_setZ env coreExpressions
        (emits st [Event.scheduleTimer 200, Event.log "Adding expressions..."]) z
      rw [show addCoreExpressions env (emits (setZ st z) [Event.scheduleTimer 200,
        Event.log "Adding expressions..."]) = addCoreAux env coreExpressions
        (setZ (emits st [Event.scheduleTimer 200, Event.log "Adding expressions..."]) z)
        from rfl, this] at h
      exact h
    rw [if_pos h']
    have hc := addCoreAux_setZ env coreExpressions
      (emits st [Event.scheduleTimer 200, Event.log "Adding expressions..."]) z
    show emit (addCoreAux env coreExpressions
        (setZ (emits st [Event.scheduleTimer 200, Event.log "Adding expressions..."]) z)).1
        (Event.logError "Error adding expressions:") = _
    rw [hc]
    rfl
  case isFalse h =>
    have h' : ¬ (addCoreExpressions env (emits st [Event.scheduleTimer 200,
        Event.log "Adding expressions..."])).2 = true := by
      intro hcontra
      apply h
      have hc := addCoreAux_setZ env coreExpressions
        (emits st [Event.scheduleTimer 200, Event.log "Adding expressions..."]) z
      show (addCoreAux env coreExpressions
        (setZ (emits st [Event.scheduleTimer 200, Event.log "Adding expressions..."]) z)).2 = true
      rw [hc]
      exact hcontra
    rw [if_neg h']
    have hc := addCoreAux_setZ env coreExpressions
      (emits st [Event.scheduleTimer 200, Event.log "Adding expressions..."]) z
    show emits { addUnitDefinitions env (addCoreAux env coreExpressions
        (setZ (emits st [Event.scheduleTimer 200, Event.log "Adding expressions..."]) z)).1 with
        isFullyReady := true
        winCalculatorFullyReady := some true }
      [Event.log "All expressions added successfully!", Event.setIsFullyReady true,
       Event.setGlobalCalculatorFullyReady true] = _
    rw [hc]
    show emits { addUnitsAux env 0 UNIT_DEFINITIONS
        (setZ (addCoreAux env coreExpressions (emits st [Event.scheduleTimer 200,
          Event.log "Adding expressions..."])).1 z) with
        isFullyReady := true
        winCalculatorFullyReady := some true } _ = _
    rw [addUnitsAux_setZ]
    rfl

theorem applySettings_setZ (env : Env) (st : RunState) (z : String) :
    applySettings env (setZ st z) = setZ (applySettings env st) z := by
  unfold applySettings
  rw [settingsBody_setZ, addExpressions_setZ]

theorem initializeCalculator_setZ (env : Env) (z1 z2 : String) :
    initializeCalculator env z1 = setZ (initializeCalculator env z2) z1 := by
  cases h : env.elementExists "calculator"
  case true =>
    rw [initializeCalculator, initializeCalculator, init_found env "calculator" z1 h,
      init_found env "calculator" z2 h, applySettings, applySettings]
    have hpm : postMountSt env "calculator" z1 = setZ (postMountSt env "calculator" z2) z1 := rfl
    rw [hpm, settingsBody_setZ, addExpressions_setZ]
  case false =>
    have h1 : ¬ env.elementExists (initSt "calculator" z1).elementId = true := by
      simp [initSt, h]
    have h2 : ¬ env.elementExists (initSt "calculator" z2).elementId = true := by
      simp [initSt, h]
    rw [initializeCalculator, initializeCalculator, init, init, if_neg h1, if_neg h2]
    rfl

end DesmosCalc

namespace DesmosCalc

/-! ### The claims -/

/-- C1: for every run in which the expression-population phase completes
successfully (no registration call throws), exactly 6 core expressions and
exactly 8 unit definitions have been registered on the widget, each list
in its fixed declared order, and the fully-ready flag (`isFullyReady` /
`window.calculatorFullyReady`) is true. -/
theorem claim_C1_expression_population (env : Env) (z : String)
    (hfound : env.elementExists "calculator" = true)
    (hse : ∀ (n : Nat) (e : ExprDef), env.setExpressionThrows n e = false) :
    (initializeCalculator env z).calculator.map Widget.exprs
        = some (coreExpressions ++ UNIT_DEFINITIONS) ∧
    coreExpressions.length = 6 ∧ UNIT_DEFINITIONS.length = 8 ∧
    setExpressionCalls (initializeCalculator env z).trace
        = coreExpressions ++ UNIT_DEFINITIONS ∧
    (initializeCalculator env z).isFullyReady = true ∧
    (initializeCalculator env z).winCalculatorFullyReady = some true := by
  have hrun : initializeCalculator env z
      = addExpressions env (settingsBody env (postMountSt env "calculator" z)) := by
    rw [initializeCalculator, init_found env "calculator" z hfound, applySettings]
  obtain ⟨hsb1, hsb2, hsb3, hsb4, hsb5, hsb6⟩ :=
    settingsBody_facts env (postMountSt env "calculator" z)
  obtain ⟨hae1, hae2, hae3, hae4⟩ :=
    addExpressions_success env (settingsBody env (postMountSt env "calculator" z)) hse
  have hsb2' : (settingsBody env (postMountSt env "calculator" z)).calculator.map Widget.exprs
      = some [] := by rw [hsb2]; simp [postMountSt]
  obtain ⟨w, hw, hwe⟩ := Option.map_eq_some'.mp hsb2'
  refine ⟨?_, by decide, by decide, ?_, ?_, ?_⟩
  · rw [hrun, hae1, hw]
    simp [hwe]
    decide
  · rw [hrun, hae4, hsb1]
    simp [postMountSt, setExpressionCalls_cons, setExpressionCalls_nil]
  · rw [hrun]; exact hae2
  · rw [hrun]; exact hae3

/-- C2: for every run of the settings phase (batch success or fallback),
the expression-population stage is scheduled afterwards — the trace splits
into a settings part with no `setExpression` call followed by a part
holding the 200ms population timer and no settings call — and the
settings-ready flag ends true exactly when the batch path succeeded; the
fallback path never sets it. -/
theorem claim_C2_settings_then_expressions (env : Env) (z : String)
    (hfound : env.elementExists "calculator" = true) :
    (∃ a b, (initializeCalculator env z).trace = a ++ b ∧
        setExpressionCalls a = [] ∧
        updateSettingsCalls b = [] ∧ setMathBoundsCalls b = [] ∧
        timersScheduled b = [200]) ∧
    ((initializeCalculator env z).isReady = true ↔
        env.updateSettingsThrows 0 DEFAULT_SETTINGS = false ∧
        env.setMathBoundsThrows 0 DEFAULT_BOUNDS = false) := by
  have hrun : initializeCalculator env z
      = addExpressions env (settingsBody env (postMountSt env "calculator" z)) := by
    rw [initializeCalculator, init_found env "calculator" z hfound, applySettings]
  obtain ⟨⟨d, hd⟩, hA2, hA3, hA4, hA5, hA6, hA7, hA8, hA9, hA10⟩ :=
    addExpressions_facts env (settingsBody env (postMountSt env "calculator" z))
  obtain ⟨hsb1, hsb2, hsb3, hsb4, hsb5, hsb6⟩ :=
    settingsBody_facts env (postMountSt env "calculator" z)
  rw [hd, updateSettingsCalls_append] at hA2
  replace hA2 := List.append_cancel_left (hA2.trans (List.append_nil _).symm)
  rw [hd, setMathBoundsCalls_append] at hA3
  replace hA3 := List.append_cancel_left (hA3.trans (List.append_nil _).symm)
  rw [hd, timersScheduled_append] at hA6
  replace hA6 := List.append_cancel_left hA6
  refine ⟨⟨(settingsBody env (postMountSt env "calculator" z)).trace, d,
    by rw [hrun]; exact hd, ?_, hA2, hA3, hA6⟩, ?_⟩
  · rw [hsb1]
    simp [postMountSt, setExpressionCalls_cons, setExpressionCalls_nil]
  · rw [hrun, hA7, settingsBody_isReady]
    simp [postMountSt, Bool.and_eq_true, Bool.not_eq_true']

/-- An environment in which only the very first `setMathBounds` call
throws: the batch bounds call fails and everything else succeeds. -/
def envC3 : Env :=
  { elementExists := fun _ => true
    initialSettings := { degreeMode := true, xAxisScale := "linear", yAxisScale := "linear" }
    initialBounds := { left := -10, right := 10, bottom := -10, top := 10 }
    updateSettingsThrows := fun _ _ => false
    setMathBoundsThrows := fun n _ => n == 0
    setExpressionThrows := fun _ _ => false }

/-- C3 counterexample: in a run where the (batch) `setMathBounds` call
throws, `setMathBounds` IS retried — the catch block invokes the
individual fallback, which calls `setMathBounds` a second time, so the
claim "a bounds-application failure causes no retry of any kind" fails. -/
theorem claim_C3_counterexample :
    envC3.setMathBoundsThrows 0 DEFAULT_BOUNDS = true ∧
    setMathBoundsCalls (initializeCalculator envC3 "z").trace
      = [DEFAULT_BOUNDS, DEFAULT_BOUNDS] := by decide

/-- C3 amended: a failure of the fallback's `setMathBounds` call is logged
only and never retried — no run makes more than two `setMathBounds` calls —
but a failure of the batch-path `setMathBounds` call triggers the
individual fallback, which retries `setMathBounds` exactly once. -/
theorem claim_C3_amended (env : Env) (z : String)
    (hfound : env.elementExists "calculator" = true) :
    (setMathBoundsCalls (initializeCalculator env z).trace).length ≤ 2 ∧
    (env.updateSettingsThrows 0 DEFAULT_SETTINGS = false →
      env.setMathBoundsThrows 0 DEFAULT_BOUNDS = true →
      setMathBoundsCalls (initializeCalculator env z).trace
        = [DEFAULT_BOUNDS, DEFAULT_BOUNDS]) := by
  have hrun : initializeCalculator env z
      = addExpressions env (settingsBody env (postMountSt env "calculator" z)) := by
    rw [initializeCalculator, init_found env "calculator" z hfound, applySettings]
  obtain ⟨-, -, hA3, -, -, -, -, -, -, -⟩ :=
    addExpressions_facts env (settingsBody env (postMountSt env "calculator" z))
  have hmb := settingsBody_mbCalls env (postMountSt env "calculator" z)
  constructor
  · rw [hrun, hA3, hmb]
    split <;> simp [postMountSt, setMathBoundsCalls_cons, setMathBoundsCalls_nil]
  · intro hu hb
    rw [hrun, hA3, hmb,
      if_pos (show env.updateSettingsThrows (postMountSt env "calculator" z).usCount
          DEFAULT_SETTINGS = false ∧
        env.setMathBoundsThrows (postMountSt env "calculator" z).mbCount DEFAULT_BOUNDS = true
        from ⟨hu, hb⟩)]
    simp [postMountSt, setMathBoundsCalls_cons, setMathBoundsCalls_nil]

/-- An environment in which only the very first `setExpression` call
throws (the first core expression) and everything else succeeds. -/
def envC4 : Env :=
  { elementExists := fun _ => true
    initialSettings := { degreeMode := true, xAxisScale := "linear", yAxisScale := "linear" }
    initialBounds := { left := -10, right := 10, bottom := -10, top := 10 }
    updateSettingsThrows := fun _ _ => false
    setMathBoundsThrows := fun _ _ => false
    setExpressionThrows := fun n _ => n == 0 }

/-- The first core expression descriptor (head of `coreExpressions`). -/
def coreFirst : ExprDef :=
  { id := "f", latex := "Z = \\frac\x7b1\x7d\x7b1+sR_\x7be\x7dC_\x7be\x7d\x7d",
    sliderBounds := none }

/-- C4 counterexample: the expression phase runs (its log line is in the
trace), the first core registration throws, and then NO unit definition is
attempted — the only `setExpression` call of the whole run is that first
core expression, refuting "each of the eight unit definitions is attempted
... even when the core-expression batch errored beforehand". -/
theorem claim_C4_counterexample :
    coreExpressions.head? = some coreFirst ∧
    envC4.setExpressionThrows 0 coreFirst = true ∧
    Event.log "Adding expressions..." ∈ (initializeCalculator envC4 "z").trace ∧
    setExpressionCalls (initializeCalculator envC4 "z").trace = [coreFirst] := by decide

/-- C4 amended: whenever the expression-population phase runs and the core
batch completes without a throw, each of the eight unit definitions is
attempted independently (one `setExpression` call each, in order, whatever
the unit calls themselves do); when the core batch throws, the unit loop
is skipped entirely. -/
theorem claim_C4_amended (env : Env) (z : String)
    (hfound : env.elementExists "calculator" = true)
    (hcore : ∀ (n : Nat) (e : ExprDef), e ∈ coreExpressions →
      env.setExpressionThrows n e = false) :
    setExpressionCalls (initializeCalculator env z).trace
        = coreExpressions ++ UNIT_DEFINITIONS ∧
    UNIT_DEFINITIONS.length = 8 := by
  have hrun : initializeCalculator env z
      = addExpressions env (settingsBody env (postMountSt env "calculator" z)) := by
    rw [initializeCalculator, init_found env "calculator" z hfound, applySettings]
  obtain ⟨hsb1, -, -, -, -, -⟩ := settingsBody_facts env (postMountSt env "calculator" z)
  have hco := addExpressions_coreOk env
    (settingsBody env (postMountSt env "calculator" z)) hcore
  refine ⟨?_, by decide⟩
  rw [hrun, hco, hsb1]
  simp [postMountSt, setExpressionCalls_cons, setExpressionCalls_nil]

/-- C5: whenever the batch `updateSettings` call throws, the whole run
makes exactly three `updateSettings` calls — the failed batch call, then
one individual call per fallback key (degree mode, then x-axis scale) —
and exactly one `setMathBounds` call (the fallback's bounds retry); no
other retry of any kind occurs. -/
theorem claim_C5_fallback_calls (env : Env) (z : String)
    (hfound : env.elementExists "calculator" = true)
    (hu : env.updateSettingsThrows 0 DEFAULT_SETTINGS = true) :
    updateSettingsCalls (initializeCalculator env z).trace
        = [DEFAULT_SETTINGS, fallbackDegree, fallbackXAxis] ∧
    setMathBoundsCalls (initializeCalculator env z).trace = [DEFAULT_BOUNDS] := by
  have hrun : initializeCalculator env z
      = addExpressions env (settingsBody env (postMountSt env "calculator" z)) := by
    rw [initializeCalculator, init_found env "calculator" z hfound, applySettings]
  obtain ⟨-, hA2, hA3, -, -, -, -, -, -, -⟩ :=
    addExpressions_facts env (settingsBody env (postMountSt env "calculator" z))
  constructor
  · rw [hrun, hA2, settingsBody_usCalls,
      if_pos (Or.inl (show env.updateSettingsThrows
        (postMountSt env "calculator" z).usCount DEFAULT_SETTINGS = true from hu))]
    simp [postMountSt, updateSettingsCalls_cons, updateSettingsCalls_nil]
  · rw [hrun, hA3, settingsBody_mbCalls,
      if_neg (show ¬ (env.updateSettingsThrows
          (postMountSt env "calculator" z).usCount DEFAULT_SETTINGS = false ∧
        env.setMathBoundsThrows (postMountSt env "calculator" z).mbCount DEFAULT_BOUNDS = true)
        from fun hcontra => by
          have h1 := hcontra.1
          rw [show (postMountSt env "calculator" z).usCount = 0 from rfl, hu] at h1
          exact Bool.noConfusion h1)]
    simp [postMountSt, setMathBoundsCalls_cons, setMathBoundsCalls_nil]

end DesmosCalc

namespace DesmosCalc

/-- C6: for every mount id whose DOM lookup finds no element, `init`
constructs no widget, schedules no timers, makes no external call, sets no
flag and no global — the whole run is the startup log line followed by one
error line (and `init`, being a total function here, propagates nothing). -/
theorem claim_C6_missing_mount (env : Env) (id z : String)
    (h : env.elementExists id = false) :
    init env (initSt id z) = { initSt id z with
      trace := [Event.log "Initializing Desmos Calculator...",
        Event.logError ("Element with ID \x27" ++ id ++ "\x27 not found")] } ∧
    (init env (initSt id z)).calculator = none ∧
    timersScheduled (init env (initSt id z)).trace = [] ∧
    updateSettingsCalls (init env (initSt id z)).trace = [] ∧
    setMathBoundsCalls (init env (initSt id z)).trace = [] ∧
    setExpressionCalls (init env (initSt id z)).trace = [] ∧
    (init env (initSt id z)).isReady = false ∧
    (init env (initSt id z)).isFullyReady = false ∧
    (init env (initSt id z)).winDesmosCalc = false := by
  have h0 : init env (initSt id z) = { initSt id z with
      trace := [Event.log "Initializing Desmos Calculator...",
        Event.logError ("Element with ID \x27" ++ id ++ "\x27 not found")] } := by
    rw [init, if_neg (show ¬ env.elementExists (initSt id z).elementId = true by
      simp [initSt, h])]
    rfl
  rw [h0]
  refine ⟨rfl, rfl, ?_, ?_, ?_, ?_, rfl, rfl, rfl⟩ <;>
    simp [initSt, timersScheduled_cons, timersScheduled_nil, updateSettingsCalls_cons,
      updateSettingsCalls_nil, setMathBoundsCalls_cons, setMathBoundsCalls_nil,
      setExpressionCalls_cons, setExpressionCalls_nil]

/-- C7: every run of the unit-definition loop attempts all eight unit
definitions, in order, one `setExpression` call each, whatever single
calls the environment makes throw — the count of attempted registrations
is 8 regardless of any failure. -/
theorem claim_C7_units_always_attempted (env : Env) (st : RunState) :
    setExpressionCalls (addUnitDefinitions env st).trace
        = setExpressionCalls st.trace ++ UNIT_DEFINITIONS ∧
    UNIT_DEFINITIONS.length = 8 := by
  obtain ⟨-, hu2, -, -, -, -, -, -, -, -, -, -, -⟩ := addUnitsAux_facts env UNIT_DEFINITIONS 0 st
  exact ⟨by simp [addUnitDefinitions, hu2], by decide⟩

/-- An environment in which every `updateSettings` call throws (so the
settings phase falls back and never sets the settings-ready flag) while
every expression registration succeeds. -/
def envC8 : Env :=
  { elementExists := fun _ => true
    initialSettings := { degreeMode := true, xAxisScale := "linear", yAxisScale := "linear" }
    initialBounds := { left := -10, right := 10, bottom := -10, top := 10 }
    updateSettingsThrows := fun _ _ => true
    setMathBoundsThrows := fun _ _ => false
    setExpressionThrows := fun _ _ => false }

/-- C8 counterexample: the fully-ready flag becomes true in a run where
the settings-ready flag stays false forever (the fallback settings path
never sets it), refuting "the settings-ready flag becomes true before the
fully-ready flag does". -/
theorem claim_C8_counterexample :
    (initializeCalculator envC8 "z").isFullyReady = true ∧
    (initializeCalculator envC8 "z").isReady = false := by decide

/-- C8 amended: both readiness flags start false and are monotonic — every
write to either writes `true`, so neither is ever reset — and every
settings-ready write precedes every fully-ready write in the trace;
however the fully-ready flag can become true in a run where the
settings-ready flag remains false (the fallback settings path does not set
it). -/
theorem claim_C8_amended (env : Env) (z : String)
    (hfound : env.elementExists "calculator" = true) :
    (initSt "calculator" z).isReady = false ∧
    (initSt "calculator" z).isFullyReady = false ∧
    (∀ v ∈ isReadyWrites (initializeCalculator env z).trace, v = true) ∧
    (∀ v ∈ isFullyReadyWrites (initializeCalculator env z).trace, v = true) ∧
    (∃ a b, (initializeCalculator env z).trace = a ++ b ∧
        isFullyReadyWrites a = [] ∧ isReadyWrites b = []) := by
  have hrun : initializeCalculator env z
      = addExpressions env (settingsBody env (postMountSt env "calculator" z)) := by
    rw [initializeCalculator, init_found env "calculator" z hfound, applySettings]
  obtain ⟨⟨d, hd⟩, -, -, hA4, ⟨zs, hzs1, hzs2⟩, -, -, -, -, -⟩ :=
    addExpressions_facts env (settingsBody env (postMountSt env "calculator" z))
  obtain ⟨-, -, -, -, -, hsb6⟩ := settingsBody_facts env (postMountSt env "calculator" z)
  have hsbR := settingsBody_readyWrites env (postMountSt env "calculator" z)
  have hA4d : isReadyWrites d = [] := by
    have hcopy := hA4
    rw [hd, isReadyWrites_append] at hcopy
    exact List.append_cancel_left (hcopy.trans (List.append_nil _).symm)
  refine ⟨rfl, rfl, ?_, ?_,
    ⟨(settingsBody env (postMountSt env "calculator" z)).trace, d,
      by rw [hrun]; exact hd, ?_, hA4d⟩⟩
  · intro v hv
    rw [hrun, hA4, hsbR] at hv
    simp only [postMountSt, isReadyWrites_cons, isReadyWrites_nil] at hv
    split at hv <;> simp_all
  · intro v hv
    rw [hrun, hzs1, hsb6] at hv
    simp only [postMountSt, isFullyReadyWrites_cons, isFullyReadyWrites_nil] at hv
    simp only [List.nil_append, List.append_nil] at hv
    exact hzs2 v hv
  · rw [hsb6]
    simp [postMountSt, isFullyReadyWrites_cons, isFullyReadyWrites_nil]

/-- C9: after the settings phase completes on the non-fallback success
path (neither batch call throws), the widget's applied settings are
exactly degree mode off, logarithmic x-axis, linear y-axis, and its bounds
are exactly `DEFAULT_BOUNDS` — whatever snapshot the widget started with
and whatever the expression phase does afterwards. -/
theorem claim_C9_settings_values (env : Env) (z : String)
    (hfound : env.elementExists "calculator" = true)
    (hu : env.updateSettingsThrows 0 DEFAULT_SETTINGS = false)
    (hb : env.setMathBoundsThrows 0 DEFAULT_BOUNDS = false) :
    (initializeCalculator env z).calculator.map Widget.settings
        = some { degreeMode := false, xAxisScale := "logarithmic", yAxisScale := "linear" } ∧
    (initializeCalculator env z).calculator.map Widget.bounds = some DEFAULT_BOUNDS := by
  have hrun : initializeCalculator env z
      = addExpressions env (settingsBody env (postMountSt env "calculator" z)) := by
    rw [initializeCalculator, init_found env "calculator" z hfound, applySettings]
  obtain ⟨hs1, hs2⟩ := settingsBody_success_state env (postMountSt env "calculator" z) hu hb
  obtain ⟨-, -, -, -, -, -, -, -, hA9, hA10⟩ :=
    addExpressions_facts env (settingsBody env (postMountSt env "calculator" z))
  constructor
  · rw [hrun, hA9, hs1]; simp [postMountSt]
  · rw [hrun, hA10, hs2]; simp [postMountSt]

/-- C10: the formula-string parameter of `initializeCalculator` has no
observable effect: for the same environment, runs with any two formula
strings produce the same trace (every widget call, every console line,
every timer, every flag-write event), the same widget state, the same
flags and globals, and the same `getStatus` result. -/
theorem claim_C10_formula_parameter_unused (env : Env) (z1 z2 : String) :
    (initializeCalculator env z1).trace = (initializeCalculator env z2).trace ∧
    (initializeCalculator env z1).calculator = (initializeCalculator env z2).calculator ∧
    (initializeCalculator env z1).isReady = (initializeCalculator env z2).isReady ∧
    (initializeCalculator env z1).isFullyReady = (initializeCalculator env z2).isFullyReady ∧
    (initializeCalculator env z1).winDesmosCalc = (initializeCalculator env z2).winDesmosCalc ∧
    (initializeCalculator env z1).winCalculatorReady
        = (initializeCalculator env z2).winCalculatorReady ∧
    (initializeCalculator env z1).winCalculatorFullyReady
        = (initializeCalculator env z2).winCalculatorFullyReady ∧
    getStatus (initializeCalculator env z1) = getStatus (initializeCalculator env z2) := by
  rw [initializeCalculator_setZ env z1 z2]
  exact ⟨rfl, rfl, rfl, rfl, rfl, rfl, rfl, rfl⟩

end DesmosCalc

namespace DesmosCalc

/-! ### Concrete witnesses -/

/-- A benign environment: mount found, nothing throws. -/
def envW1 : Env :=
  { elementExists := fun _ => true
    initialSettings := { degreeMode := true, xAxisScale := "linear", yAxisScale := "linear" }
    initialBounds := { left := -10, right := 10, bottom := -10, top := 10 }
    updateSettingsThrows := fun _ _ => false
    setMathBoundsThrows := fun _ _ => false
    setExpressionThrows := fun _ _ => false }

theorem claim_C1_witness :
    envW1.elementExists "calculator" = true ∧
    ((initializeCalculator envW1 "w").calculator.map Widget.exprs
        = some (coreExpressions ++ UNIT_DEFINITIONS) ∧
      coreExpressions.length = 6 ∧ UNIT_DEFINITIONS.length = 8 ∧
      setExpressionCalls (initializeCalculator envW1 "w").trace
        = coreExpressions ++ UNIT_DEFINITIONS ∧
      (initializeCalculator envW1 "w").isFullyReady = true ∧
      (initializeCalculator envW1 "w").winCalculatorFullyReady = some true) :=
  ⟨rfl, claim_C1_expression_population envW1 "w" rfl (fun _ _ => rfl)⟩

/-- A benign environment for the C2 witness. -/
def envW2 : Env :=
  { elementExists := fun _ => true
    initialSettings := { degreeMode := true, xAxisScale := "linear", yAxisScale := "linear" }
    initialBounds := { left := -10, right := 10, bottom := -10, top := 10 }
    updateSettingsThrows := fun _ _ => false
    setMathBoundsThrows := fun _ _ => false
    setExpressionThrows := fun _ _ => false }

theorem claim_C2_witness :
    envW2.elementExists "calculator" = true ∧
    ((∃ a b, (initializeCalculator envW2 "w").trace = a ++ b ∧
        setExpressionCalls a = [] ∧
        updateSettingsCalls b = [] ∧ setMathBoundsCalls b = [] ∧
        timersScheduled b = [200]) ∧
      ((initializeCalculator envW2 "w").isReady = true ↔
        envW2.updateSettingsThrows 0 DEFAULT_SETTINGS = false ∧
        envW2.setMathBoundsThrows 0 DEFAULT_BOUNDS = false)) :=
  ⟨rfl, claim_C2_settings_then_expressions envW2 "w" rfl⟩

/-- A batch-bounds-failure environment for the C3 amended witness. -/
def envW3 : Env :=
  { elementExists := fun _ => true
    initialSettings := { degreeMode := true, xAxisScale := "linear", yAxisScale := "linear" }
    initialBounds := { left := -10, right := 10, bottom := -10, top := 10 }
    updateSettingsThrows := fun _ _ => false
    setMathBoundsThrows := fun n _ => n == 0
    setExpressionThrows := fun _ _ => false }

theorem claim_C3_amended_witness :
    envW3.elementExists "calculator" = true ∧
    ((setMathBoundsCalls (initializeCalculator envW3 "w").trace).length ≤ 2 ∧
      (envW3.updateSettingsThrows 0 DEFAULT_SETTINGS = false →
        envW3.setMathBoundsThrows 0 DEFAULT_BOUNDS = true →
        setMathBoundsCalls (initializeCalculator envW3 "w").trace
          = [DEFAULT_BOUNDS, DEFAULT_BOUNDS])) :=
  ⟨rfl, claim_C3_amended envW3 "w" rfl⟩

/-- An environment in which only a unit registration (the second unit,
overall call index 7) throws — core never throws. -/
def envW4 : Env :=
  { elementExists := fun _ => true
    initialSettings := { degreeMode := true, xAxisScale := "linear", yAxisScale := "linear" }
    initialBounds := { left := -10, right := 10, bottom := -10, top := 10 }
    updateSettingsThrows := fun _ _ => false
    setMathBoundsThrows := fun _ _ => false
    setExpressionThrows := fun _ e => e.id == "p_unit" }

theorem claim_C4_amended_witness :
    envW4.elementExists "calculator" = true ∧
    (∀ (n : Nat) (e : ExprDef), e ∈ coreExpressions →
      envW4.setExpressionThrows n e = false) ∧
    (setExpressionCalls (initializeCalculator envW4 "w").trace
        = coreExpressions ++ UNIT_DEFINITIONS ∧
      UNIT_DEFINITIONS.length = 8) := by
  have hcore : ∀ (n : Nat) (e : ExprDef), e ∈ coreExpressions →
      envW4.setExpressionThrows n e = false := by
    intro n e he
    simp only [coreExpressions, List.mem_cons, List.not_mem_nil, or_false] at he
    rcases he with h | h | h | h | h | h <;> subst h <;> rfl
  exact ⟨rfl, hcore, claim_C4_amended envW4 "w" rfl hcore⟩

/-- A batch-settings-failure environment for the C5 witness. -/
def envW5 : Env :=
  { elementExists := fun _ => true
    initialSettings := { degreeMode := true, xAxisScale := "linear", yAxisScale := "linear" }
    initialBounds := { left := -10, right := 10, bottom := -10, top := 10 }
    updateSettingsThrows := fun _ _ => true
    setMathBoundsThrows := fun _ _ => false
    setExpressionThrows := fun _ _ => false }

theorem claim_C5_witness :
    envW5.elementExists "calculator" = true ∧
    envW5.updateSettingsThrows 0 DEFAULT_SETTINGS = true ∧
    (updateSettingsCalls (initializeCalculator envW5 "w").trace
        = [DEFAULT_SETTINGS, fallbackDegree, fallbackXAxis] ∧
      setMathBoundsCalls (initializeCalculator envW5 "w").trace = [DEFAULT_BOUNDS]) :=
  ⟨rfl, rfl, claim_C5_fallback_calls envW5 "w" rfl rfl⟩

/-- An environment whose DOM lookup never finds any element. -/
def envW6 : Env :=
  { elementExists := fun _ => false
    initialSettings := { degreeMode := true, xAxisScale := "linear", yAxisScale := "linear" }
    initialBounds := { left := -10, right := 10, bottom := -10, top := 10 }
    updateSettingsThrows := fun _ _ => false
    setMathBoundsThrows := fun _ _ => false
    setExpressionThrows := fun _ _ => false }

theorem claim_C6_witness :
    envW6.elementExists "calculator" = false ∧
    (init envW6 (initSt "calculator" "w") = { initSt "calculator" "w" with
        trace := [Event.log "Initializing Desmos Calculator...",
          Event.logError ("Element with ID \x27" ++ "calculator" ++ "\x27 not found")] } ∧
      (init envW6 (initSt "calculator" "w")).calculator = none ∧
      timersScheduled (init envW6 (initSt "calculator" "w")).trace = [] ∧
      updateSettingsCalls (init envW6 (initSt "calculator" "w")).trace = [] ∧
      setMathBoundsCalls (init envW6 (initSt "calculator" "w")).trace = [] ∧
      setExpressionCalls (init envW6 (initSt "calculator" "w")).trace = [] ∧
      (init envW6 (initSt "calculator" "w")).isReady = false ∧
      (init envW6 (initSt "calculator" "w")).isFullyReady = false ∧
      (init envW6 (initSt "calculator" "w")).winDesmosCalc = false) :=
  ⟨rfl, claim_C6_missing_mount envW6 "calculator" "w" rfl⟩

/-- A fallback-then-success environment for the C8 amended witness. -/
def envW8 : Env :=
  { elementExists := fun _ => true
    initialSettings := { degreeMode := true, xAxisScale := "linear", yAxisScale := "linear" }
    initialBounds := { left := -10, right := 10, bottom := -10, top := 10 }
    updateSettingsThrows := fun _ _ => true
    setMathBoundsThrows := fun _ _ => false
    setExpressionThrows := fun _ _ => false }

theorem claim_C8_amended_witness :
    envW8.elementExists "calculator" = true ∧
    ((initSt "calculator" "w").isReady = false ∧
      (initSt "calculator" "w").isFullyReady = false ∧
      (∀ v ∈ isReadyWrites (initializeCalculator envW8 "w").trace, v = true) ∧
      (∀ v ∈ isFullyReadyWrites (initializeCalculator envW8 "w").trace, v = true) ∧
      (∃ a b, (initializeCalculator envW8 "w").trace = a ++ b ∧
        isFullyReadyWrites a = [] ∧ isReadyWrites b = [])) :=
  ⟨rfl, claim_C8_amended envW8 "w" rfl⟩

/-- A benign environment for the C9 witness. -/
def envW9 : Env :=
  { elementExists := fun _ => true
    initialSettings := { degreeMode := true, xAxisScale := "linear", yAxisScale := "linear" }
    initialBounds := { left := -10, right := 10, bottom := -10, top := 10 }
    updateSettingsThrows := fun _ _ => false
    setMathBoundsThrows := fun _ _ => false
    setExpressionThrows := fun _ _ => false }

theorem claim_C9_witness :
    envW9.elementExists "calculator" = true ∧
    envW9.updateSettingsThrows 0 DEFAULT_SETTINGS = false ∧
    envW9.setMathBoundsThrows 0 DEFAULT_BOUNDS = false ∧
    ((initializeCalculator envW9 "w").calculator.map Widget.settings
        = some { degreeMode := false, xAxisScale := "logarithmic", yAxisScale := "linear" } ∧
      (initializeCalculator envW9 "w").calculator.map Widget.bounds = some DEFAULT_BOUNDS) :=
  ⟨rfl, rfl, rfl, claim_C9_settings_values envW9 "w" rfl rfl rfl⟩

end DesmosCalc
